import Mathlib

/-!
Shallow embedding of the YouTube transcript service (src/main.py).

The service is a Flask app with two routes:
* GET /api/video_info (main.py, get_video_info_api, lines 58-208): validates the
  video_id query parameter, stages/restores proxy environment variables,
  best-effort fetches title/author via pytube from a hardcoded URL, creates a
  temporary cookie file from the YOUTUBE_COOKIES_CONTENT environment value,
  lists caption tracks, probes the fixed language list ["ro", "en"] against
  manual then auto-generated tracks, writes the plain-text rendering of the
  chosen track to a temporary file and returns a one-time download URL.
* GET /serve_text_transcript/filename (main.py, serve_plain_text_transcript,
  lines 211-237): serves a generated file once with a text/plain content type
  and deletes it; a missing file yields 404.

External effects are represented explicitly: the filesystem of the temporary
directory is an association list from file names to contents, the proxy
environment is a pair of optional strings, and the two third-party network
capabilities (pytube metadata, youtube_transcript_api listing) are oracle
functions carried in a World record, so that every branch of the handler is a
pure total function of its inputs.
-/

namespace YTService

/-- Python truthiness of an optional string: None and the empty string are
falsy. Used for every Python test of the form if s: on a value obtained from
os.environ.get or request.args.get. -/
def truthy : Option String → Bool
  | none => false
  | some s => !(s == "")

/-- One caption segment. The service only ever reads the text field (the
TextFormatter flattening); the start/duration floats are carried opaquely by
the library and never inspected by this code, so they are omitted. -/
structure Segment where
  text : String
deriving DecidableEq, Repr

/-- One caption track: a language code plus the segments its fetch() returns. -/
structure Track where
  lang : String
  segments : List Segment
deriving DecidableEq, Repr

/-- Modelled from the spec: the transcript list returned by the external
list_transcripts capability, split into manually created and auto-generated
tracks, which the spec describes as the two families probed by
find_transcript and find_generated_transcript respectively. -/
structure TranscriptList where
  manual : List Track
  generated : List Track
deriving DecidableEq, Repr

/-- Outcome of the pytube metadata fetch (main.py lines 92-114). The title is
assigned before the author, so an exception can leave the title set and the
channel still null; both except clauses swallow the error. -/
inductive PytubeResult where
  | fail
  | titleOnly (title : String)
  | ok (title author : String)
deriving DecidableEq, Repr

/-- Outcome of YouTubeTranscriptApi.list_transcripts (main.py line 127), as
discriminated by the except clauses at lines 186-200. -/
inductive ListOutcome where
  | disabled
  | noTranscript
  | failure (msg : String)
  | ok (tl : TranscriptList)
deriving Repr

/-- The two proxy environment variables HTTP_PROXY and HTTPS_PROXY; none means
the variable is absent from os.environ. -/
structure ProxyEnv where
  httpProxy : Option String
  httpsProxy : Option String
deriving DecidableEq, Repr

/-- The temporary directory as a map from file names to contents. -/
abbrev FS := List (String × String)

/-- os.path.exists plus reading: the content of the named file, if present. -/
def FS.lookup : FS → String → Option String
  | [], _ => none
  | p :: t, n => if p.1 = n then some p.2 else FS.lookup t n

/-- open(name, "w") and write: create or overwrite the named file. -/
def FS.write (fs : FS) (n c : String) : FS :=
  (n, c) :: fs

/-- os.remove inside safe_delete_file (main.py lines 46-52). -/
def FS.erase : FS → String → FS
  | [], _ => []
  | p :: t, n => if p.1 = n then FS.erase t n else p :: FS.erase t n

/-- The query string as a list of key/value pairs. -/
abbrev Args := List (String × String)

/-- request.args.get: the first value bound to the key, if any. -/
def argsGet : Args → String → Option String
  | [], _ => none
  | p :: t, k => if p.1 = k then some p.2 else argsGet t k

/-- Process-wide configuration read at module load: the PROXY_URL environment
variable (main.py line 24). -/
structure Config where
  proxyUrl : Option String
deriving DecidableEq, Repr

/-- The per-request external world: the two network oracles (pytube keyed by
the URL it is given, list_transcripts keyed by the video id), the
YOUTUBE_COOKIES_CONTENT environment value, whether NamedTemporaryFile
creation succeeds, the fresh temp-file name it would pick, and the uuid hex
fragment used for the transcript file name. -/
structure World where
  pytube : String → PytubeResult
  listing : String → ListOutcome
  cookieContent : Option String
  cookieCreateOk : Bool
  cookieName : String
  suffix : String

/-- The video_url assigned at main.py line 64: an f-string with no
interpolated fields, hence one fixed URL whatever the requested video id. -/
def videoUrl (_videoId : String) : String :=
  "https://www.google.com/url?sa=E&source=gmail&q=https://youtube-audio-transcriber-production.up.railway.app/api/extract_audio?url=https://youtu.be/mG4XXtpuSlk?si=j1Cj0bw5Muo_xuhI"

/-- The title the handler ends up with (response_data, main.py lines 97, 102-114). -/
def pytubeTitle : PytubeResult → Option String
  | .fail => none
  | .titleOnly t => some t
  | .ok t _ => some t

/-- The channel the handler ends up with (main.py lines 99, 102-114). -/
def pytubeChannel : PytubeResult → Option String
  | .fail => none
  | .titleOnly _ => none
  | .ok _ a => some a

/-- get_cookie_file_path (main.py lines 32-43) together with the file it
writes: when YOUTUBE_COOKIES_CONTENT is nonempty and the temp file can be
created, the chosen name and the content written to it; otherwise nothing. -/
def cookieFile (w : World) : Option (String × String) :=
  match w.cookieContent with
  | some c => if !(c == "") && w.cookieCreateOk then some (w.cookieName, c) else none
  | none => none

/-- The proxy environment right after the staging block (main.py lines 82-89):
both variables are set to PROXY_URL when it is truthy, and deleted otherwise. -/
def stagedEnv (cfg : Config) : ProxyEnv :=
  if truthy cfg.proxyUrl then ⟨cfg.proxyUrl, cfg.proxyUrl⟩ else ⟨none, none⟩

/-- One variable of the finally-block restoration (main.py lines 204-207):
set back to the original when that was truthy, else deleted if present. -/
def restoreVar (orig cur : Option String) : Option String :=
  if truthy orig then orig
  else if cur.isSome then none else cur

/-- The finally block at main.py lines 203-208: restoration only happens when
PROXY_URL was set; otherwise the environment is left as the staging block
made it. -/
def finallyEnv (cfg : Config) (orig cur : ProxyEnv) : ProxyEnv :=
  if truthy cfg.proxyUrl then
    ⟨restoreVar orig.httpProxy cur.httpProxy, restoreVar orig.httpsProxy cur.httpsProxy⟩
  else cur

/-- The fixed preference list at main.py line 129. -/
def preferredLanguages : List String := ["ro", "en"]

/-- One probe loop (main.py lines 133-143 and 147-156): for each language in
order, the first track of that language; the loop breaks on the first find. -/
def findTrack (tracks : List Track) : List String → Option Track
  | [] => none
  | l :: ls =>
    match tracks.find? (fun t => t.lang = l) with
    | some t => some t
    | none => findTrack tracks ls

/-- Python truthiness of transcript_to_fetch_data: None or an empty segment
list is falsy (the tests at main.py lines 145 and 158). -/
def dataNonempty : Option (List Segment × String) → Bool
  | some (segs, _) => !segs.isEmpty
  | none => false

/-- The two probe loops plus the final truthiness test (main.py lines
129-158): first the manual tracks; if nothing was found or the found track
fetched to an empty list, the auto-generated tracks, whose language label is
suffixed; a result that is still absent or empty counts as no transcript. -/
def selectTranscript (tl : TranscriptList) : Option (List Segment × String) :=
  let manualData := (findTrack tl.manual preferredLanguages).map
    (fun t => (t.segments, t.lang))
  let chosen :=
    if dataNonempty manualData then manualData
    else (findTrack tl.generated preferredLanguages).map
      (fun t => (t.segments, t.lang ++ " (auto-generated)"))
  if dataNonempty chosen then chosen else none

/-- Modelled from the spec: TextFormatter.format_transcript flattens the
chosen track to plain text, the segment texts in order, newline-separated
(the concatenation of segment texts described by the spec). -/
def formatTranscript (segs : List Segment) : String :=
  String.intercalate "\n" (segs.map Segment.text)

/-- The temp file name at main.py line 172. -/
def transcriptFilename (videoId suffix : String) : String :=
  "transcript_" ++ videoId ++ "_" ++ suffix ++ ".txt"

/-- The response body as jsonified by the handler: the response_data fields
(main.py lines 66-72 plus language_detected added at 182), the HTTP status,
and the content type; body carries the raw text of a text/plain response of
the serving endpoint and is none for JSON responses. -/
structure Response where
  status : Nat
  contentType : String
  body : Option String
  videoId : Option String
  videoTitle : Option String
  channelName : Option String
  transcriptDownloadUrl : Option String
  languageDetected : Option String
  error : Option String
deriving DecidableEq, Repr

/-- What a run of get_video_info_api leaves behind: the HTTP response, the
temp directory, and the proxy environment. -/
structure HandlerResult where
  resp : Response
  fs : FS
  env : ProxyEnv
deriving Repr

/-- The body of the try block from line 127 on, as a function of the already
computed title/channel and the listing outcome: the response, plus the
transcript file written on the success path (name, content). -/
def tryBody (vid : String) (title channel : Option String) (lo : ListOutcome)
    (sfx : String) : Response × Option (String × String) :=
  let base : Response :=
    { status := 200, contentType := "application/json", body := none,
      videoId := some vid, videoTitle := title, channelName := channel,
      transcriptDownloadUrl := none, languageDetected := none, error := none }
  match lo with
  | .disabled =>
    ({ base with
        status := 403,
        error := some "Transcripts are disabled for this video." }, none)
  | .noTranscript =>
    ({ base with
        status := 404,
        error := some "No transcript available for this video ID (overall)." }, none)
  | .failure msg =>
    ({ base with
        status := 500,
        error := some ("An unexpected server-side error occurred: " ++ msg) }, none)
  | .ok tl =>
    match selectTranscript tl with
    | none =>
      ({ base with
          status := if title = none ∧ channel = none then 404 else 200,
          error := some "No transcript found in Romanian or English (manual or auto-generated)." },
       none)
    | some (segs, lang) =>
      let fname := transcriptFilename vid sfx
      ({ base with
          transcriptDownloadUrl := some ("/serve_text_transcript/" ++ fname),
          languageDetected := some lang },
       some (fname, formatTranscript segs))

/-- get_video_info_api after the video_id check passed: stage the proxy
environment, fetch metadata, create the cookie file, run the try body, write
the transcript file when one was produced, then the finally block (delete the
cookie file, conditionally restore the proxy variables). -/
def runValid (cfg : Config) (w : World) (env : ProxyEnv) (fs : FS) (vid : String) :
    HandlerResult :=
  let pt := w.pytube (videoUrl vid)
  let ck := cookieFile w
  let fs1 := match ck with
    | some nc => FS.write fs nc.1 nc.2
    | none => fs
  let tb := tryBody vid (pytubeTitle pt) (pytubeChannel pt) (w.listing vid) w.suffix
  let fs2 := match tb.2 with
    | some nc => FS.write fs1 nc.1 nc.2
    | none => fs1
  let fs3 := match ck with
    | some nc => FS.erase fs2 nc.1
    | none => fs2
  { resp := tb.1, fs := fs3, env := finallyEnv cfg env (stagedEnv cfg) }

/-- GET /api/video_info (main.py lines 58-208). The missing-parameter return
at line 62 happens before the try block, so it touches neither the filesystem
nor the proxy environment. -/
def getVideoInfoApi (cfg : Config) (w : World) (env : ProxyEnv) (fs : FS)
    (args : Args) : HandlerResult :=
  let vopt := argsGet args "video_id"
  if truthy vopt then
    runValid cfg w env fs (vopt.getD "")
  else
    { resp := { status := 400, contentType := "application/json", body := none,
                videoId := none, videoTitle := none, channelName := none,
                transcriptDownloadUrl := none, languageDetected := none,
                error := some "Missing \x27video_id\x27 parameter" },
      fs := fs, env := env }

/-- The result of the serving endpoint: status, content type, raw text body
(none for the JSON error body), the error field of that JSON body, and the
directory afterwards. -/
structure ServeResult where
  status : Nat
  contentType : String
  body : Option String
  error : Option String
  fs : FS
deriving Repr

/-- GET /serve_text_transcript/filename (main.py lines 211-237): 404 when the
file is absent; otherwise the file is sent with the text/plain content type
and deleted once the response closes. -/
def servePlainTextTranscript (fs : FS) (filename : String) : ServeResult :=
  match FS.lookup fs filename with
  | none =>
    { status := 404, contentType := "application/json", body := none,
      error := some "Transcript file not found or already served.", fs := fs }
  | some content =>
    { status := 200, contentType := "text/plain; charset=utf-8",
      body := some content, error := none, fs := FS.erase fs filename }

/-! ### Basic lemmas about the filesystem model and the request plumbing -/

theorem FS.lookup_erase_self (fs : FS) (n : String) :
    FS.lookup (FS.erase fs n) n = none := by
  induction fs with
  | nil => rfl
  | cons p t ih =>
    by_cases h : p.1 = n
    · simp [FS.erase, h, ih]
    · simp [FS.erase, FS.lookup, h, ih]

theorem FS.lookup_erase_ne (fs : FS) (m n : String) (h : m ≠ n) :
    FS.lookup (FS.erase fs m) n = FS.lookup fs n := by
  induction fs with
  | nil => rfl
  | cons p t ih =>
    by_cases hp : p.1 = m
    · simp [FS.erase, FS.lookup, hp, h, ih]
    · simp only [FS.erase, hp, if_neg hp]
      by_cases hn : p.1 = n
      · simp [FS.lookup, hn]
      · simp [FS.lookup, hn, ih]

theorem FS.lookup_write_self (fs : FS) (n c : String) :
    FS.lookup (FS.write fs n c) n = some c := by
  simp [FS.write, FS.lookup]

/-- The cookie file, when created, always bears the name chosen by
NamedTemporaryFile. -/
theorem cookieFile_name (w : World) (nc : String × String)
    (h : cookieFile w = some nc) : nc.1 = w.cookieName := by
  cases hc : w.cookieContent with
  | none => simp [cookieFile, hc] at h
  | some c =>
    simp only [cookieFile, hc] at h
    split at h
    · cases h; rfl
    · cases h

/-- A request that passes the video_id check runs the try/finally body. -/
theorem getVideoInfoApi_valid (cfg : Config) (w : World) (env : ProxyEnv)
    (fs : FS) (args : Args) (vid : String)
    (hvid : argsGet args "video_id" = some vid) (hne : vid ≠ "") :
    getVideoInfoApi cfg w env fs args = runValid cfg w env fs vid := by
  unfold getVideoInfoApi
  rw [hvid]
  simp [truthy, hne]

theorem runValid_env (cfg : Config) (w : World) (env : ProxyEnv) (fs : FS)
    (vid : String) :
    (runValid cfg w env fs vid).env = finallyEnv cfg env (stagedEnv cfg) := rfl

theorem runValid_resp (cfg : Config) (w : World) (env : ProxyEnv) (fs : FS)
    (vid : String) :
    (runValid cfg w env fs vid).resp =
      (tryBody vid (pytubeTitle (w.pytube (videoUrl vid)))
        (pytubeChannel (w.pytube (videoUrl vid))) (w.listing vid) w.suffix).1 := rfl

theorem tryBody_videoTitle (vid : String) (title channel : Option String)
    (lo : ListOutcome) (sfx : String) :
    (tryBody vid title channel lo sfx).1.videoTitle = title := by
  cases lo with
  | disabled => rfl
  | noTranscript => rfl
  | failure msg => rfl
  | ok tl =>
    cases h : selectTranscript tl with
    | none => simp [tryBody, h]
    | some p => cases p with | mk segs lang => simp [tryBody, h]

theorem tryBody_channelName (vid : String) (title channel : Option String)
    (lo : ListOutcome) (sfx : String) :
    (tryBody vid title channel lo sfx).1.channelName = channel := by
  cases lo with
  | disabled => rfl
  | noTranscript => rfl
  | failure msg => rfl
  | ok tl =>
    cases h : selectTranscript tl with
    | none => simp [tryBody, h]
    | some p => cases p with | mk segs lang => simp [tryBody, h]

theorem tryBody_contentType (vid : String) (title channel : Option String)
    (lo : ListOutcome) (sfx : String) :
    (tryBody vid title channel lo sfx).1.contentType = "application/json" := by
  cases lo with
  | disabled => rfl
  | noTranscript => rfl
  | failure msg => rfl
  | ok tl =>
    cases h : selectTranscript tl with
    | none => simp [tryBody, h]
    | some p => cases p with | mk segs lang => simp [tryBody, h]

/-- The manual probe wins whenever it finds a track whose fetch is nonempty. -/
theorem selectTranscript_manual (tl : TranscriptList) (t : Track)
    (ht : findTrack tl.manual preferredLanguages = some t)
    (hne : t.segments ≠ []) :
    selectTranscript tl = some (t.segments, t.lang) := by
  cases hseg : t.segments with
  | nil => exact absurd hseg hne
  | cons a l =>
    simp [selectTranscript, ht, dataNonempty, hseg]

/-- When every manual find fetches empty (or nothing is found), a nonempty
generated find is what the handler keeps, with the auto-generated label. -/
theorem selectTranscript_generated (tl : TranscriptList) (t : Track)
    (hm : ∀ tm, findTrack tl.manual preferredLanguages = some tm → tm.segments = [])
    (ht : findTrack tl.generated preferredLanguages = some t)
    (hne : t.segments ≠ []) :
    selectTranscript tl = some (t.segments, t.lang ++ " (auto-generated)") := by
  cases hseg : t.segments with
  | nil => exact absurd hseg hne
  | cons a l =>
    cases hman : findTrack tl.manual preferredLanguages with
    | none => simp [selectTranscript, hman, ht, dataNonempty, hseg]
    | some tm =>
      have hempty := hm tm hman
      simp [selectTranscript, hman, ht, dataNonempty, hempty, hseg]

/-- The response on the success path: 200, JSON, the detected language and the
one-time download URL pointing at the written transcript file. -/
theorem runValid_success (cfg : Config) (w : World) (env : ProxyEnv) (fs : FS)
    (vid : String) (tl : TranscriptList) (segs : List Segment) (lang : String)
    (hl : w.listing vid = ListOutcome.ok tl)
    (hs : selectTranscript tl = some (segs, lang)) :
    (runValid cfg w env fs vid).resp =
      { status := 200, contentType := "application/json", body := none,
        videoId := some vid,
        videoTitle := pytubeTitle (w.pytube (videoUrl vid)),
        channelName := pytubeChannel (w.pytube (videoUrl vid)),
        transcriptDownloadUrl :=
          some ("/serve_text_transcript/" ++ transcriptFilename vid w.suffix),
        languageDetected := some lang, error := none } := by
  rw [runValid_resp, hl]
  simp [tryBody, hs]

/-- On the success path the transcript file is present afterwards with the
formatted text, provided the cookie temp name does not collide with it. -/
theorem runValid_success_fs (cfg : Config) (w : World) (env : ProxyEnv)
    (fs : FS) (vid : String) (tl : TranscriptList) (segs : List Segment)
    (lang : String)
    (hl : w.listing vid = ListOutcome.ok tl)
    (hs : selectTranscript tl = some (segs, lang))
    (hcn : w.cookieName ≠ transcriptFilename vid w.suffix) :
    FS.lookup (runValid cfg w env fs vid).fs (transcriptFilename vid w.suffix)
      = some (formatTranscript segs) := by
  unfold runValid
  rw [hl]
  cases hck : cookieFile w with
  | none =>
    simp only [hck]
    simp [tryBody, hs, FS.lookup_write_self]
  | some nc =>
    have hname := cookieFile_name w nc hck
    simp only [hck]
    simp only [tryBody, hs]
    rw [FS.lookup_erase_ne _ _ _ (by rw [hname]; exact hcn)]
    exact FS.lookup_write_self _ _ _

/-! ### Concrete worlds used to instantiate the claims -/

/-- Two segments of a demo track. -/
def demoSegs : List Segment := [⟨"Hello"⟩, ⟨"world"⟩]

/-- A listing with one nonempty manual English track. -/
def demoTL : TranscriptList := ⟨[⟨"en", demoSegs⟩], []⟩

/-- A benign world: metadata fetch succeeds, one manual English track, no
cookie content configured. -/
def wDemo : World :=
  { pytube := fun _ => PytubeResult.ok "Demo Title" "Demo Channel",
    listing := fun _ => ListOutcome.ok demoTL,
    cookieContent := none, cookieCreateOk := true,
    cookieName := "cookie_tmp.txt", suffix := "abcd1234" }

/-- wDemo with the pytube metadata fetch failing. -/
def wFail : World :=
  { wDemo with pytube := fun _ => PytubeResult.fail }

/-- wDemo with cookie content present in the environment. -/
def wCookie : World :=
  { wDemo with cookieContent := some "COOKIE DATA" }

/-- A listing whose manual track in the first preferred language fetches to
an empty segment list while an auto-generated track of the same language is
nonempty. -/
def tlC4 : TranscriptList := ⟨[⟨"ro", []⟩], [⟨"ro", [⟨"salut"⟩]⟩]⟩

/-! ### The claims -/

/-- C1 (counterexample): a request whose transcript probe finds no track in
any preferred language, with captions not disabled and no other failure, but
whose metadata fetch succeeded, is answered with status 200, not 404. -/
theorem C1_counterexample :
    selectTranscript ⟨[], []⟩ = none ∧
    (getVideoInfoApi ⟨none⟩
      { wDemo with listing := fun _ => ListOutcome.ok ⟨[], []⟩ }
      ⟨none, none⟩ [] [("video_id", "abc")]).resp.status = 200 :=
  ⟨rfl, rfl⟩

/-- C1 (amended): when the probe finds no usable track, captions are not
disabled and nothing else fails, the handler returns 404 exactly when the
metadata fetch also left both title and channel null; when metadata
succeeded it returns 200 and reports the missing transcript only in the
error field of the body. -/
theorem C1_amended (cfg : Config) (w : World) (env : ProxyEnv) (fs : FS)
    (args : Args) (vid : String) (tl : TranscriptList)
    (hvid : argsGet args "video_id" = some vid) (hne : vid ≠ "")
    (hl : w.listing vid = ListOutcome.ok tl)
    (hs : selectTranscript tl = none) :
    (getVideoInfoApi cfg w env fs args).resp.status =
      (if pytubeTitle (w.pytube (videoUrl vid)) = none ∧
          pytubeChannel (w.pytube (videoUrl vid)) = none then 404 else 200) ∧
    (getVideoInfoApi cfg w env fs args).resp.error =
      some "No transcript found in Romanian or English (manual or auto-generated)." := by
  rw [getVideoInfoApi_valid cfg w env fs args vid hvid hne]
  constructor
  · rw [runValid_resp, hl]
    simp [tryBody, hs]
  · rw [runValid_resp, hl]
    simp [tryBody, hs]

/-- C1 witness: with both metadata fields null and no matching track, the
amended statement yields the 404 outcome at a concrete input. -/
theorem C1_witness :
    (getVideoInfoApi ⟨none⟩
      { wFail with listing := fun _ => ListOutcome.ok ⟨[], []⟩ }
      ⟨none, none⟩ [] [("video_id", "abc")]).resp.status = 404 := by
  have h := C1_amended ⟨none⟩
    { wFail with listing := fun _ => ListOutcome.ok ⟨[], []⟩ }
    ⟨none, none⟩ [] [("video_id", "abc")] "abc" ⟨[], []⟩
    (by decide) (by decide) rfl rfl
  exact h.1.trans (by decide)

/-- C2 (counterexample): when PROXY_URL is unset, the handler deletes any
preexisting HTTP_PROXY/HTTPS_PROXY values and the finally block never
restores them, so the environment after the request differs from before. -/
theorem C2_counterexample :
    (getVideoInfoApi ⟨none⟩ wDemo ⟨some "http://u", some "http://u"⟩ []
      [("video_id", "abc")]).env ≠ ⟨some "http://u", some "http://u"⟩ := by
  decide

/-- C2 (amended): after any request that passes parameter validation, the two
proxy variables are restored to their prior values exactly when PROXY_URL is
set and the prior value was nonempty; a prior empty value ends up absent, and
with PROXY_URL unset both variables are always absent afterwards. -/
theorem C2_amended (cfg : Config) (w : World) (env : ProxyEnv) (fs : FS)
    (args : Args) (vid : String)
    (hvid : argsGet args "video_id" = some vid) (hne : vid ≠ "") :
    (truthy cfg.proxyUrl = true →
      (getVideoInfoApi cfg w env fs args).env =
        ⟨if truthy env.httpProxy then env.httpProxy else none,
         if truthy env.httpsProxy then env.httpsProxy else none⟩) ∧
    (truthy cfg.proxyUrl = false →
      (getVideoInfoApi cfg w env fs args).env = ⟨none, none⟩) := by
  rw [getVideoInfoApi_valid cfg w env fs args vid hvid hne]
  constructor
  · intro hp
    cases hcp : cfg.proxyUrl with
    | none => rw [hcp] at hp; exact absurd hp (by decide)
    | some p =>
      rw [hcp] at hp
      rw [runValid_env]
      simp [finallyEnv, stagedEnv, restoreVar, hcp, hp]
  · intro hp
    rw [runValid_env]
    simp [finallyEnv, stagedEnv, hp]

/-- C2 witness: with PROXY_URL set and a nonempty prior HTTP_PROXY, both
variables are identical before and after at a concrete input. -/
theorem C2_witness :
    (getVideoInfoApi ⟨some "http://p"⟩ wDemo ⟨some "http://orig", none⟩ []
      [("video_id", "v")]).env = ⟨some "http://orig", none⟩ := by
  have h := (C2_amended ⟨some "http://p"⟩ wDemo ⟨some "http://orig", none⟩ []
    [("video_id", "v")] "v" (by decide) (by decide)).1 (by decide)
  exact h.trans (by decide)

/-- C3: the metadata fetch URL is one hardcoded constant whatever the
requested id, so two requests that differ only in their video_id obtain
identical title and channel fields from the same oracle. -/
theorem C3_metadata_independent (cfg : Config) (w : World) (env : ProxyEnv)
    (fs : FS) (id1 id2 : String)
    (h1 : id1 ≠ "") (h2 : id2 ≠ "") (_hdiff : id1 ≠ id2) :
    videoUrl id1 = videoUrl id2 ∧
    (getVideoInfoApi cfg w env fs [("video_id", id1)]).resp.videoTitle =
      (getVideoInfoApi cfg w env fs [("video_id", id2)]).resp.videoTitle ∧
    (getVideoInfoApi cfg w env fs [("video_id", id1)]).resp.channelName =
      (getVideoInfoApi cfg w env fs [("video_id", id2)]).resp.channelName := by
  have e1 : argsGet [("video_id", id1)] "video_id" = some id1 := by simp [argsGet]
  have e2 : argsGet [("video_id", id2)] "video_id" = some id2 := by simp [argsGet]
  refine ⟨rfl, ?_, ?_⟩
  · rw [getVideoInfoApi_valid cfg w env fs _ id1 e1 h1,
        getVideoInfoApi_valid cfg w env fs _ id2 e2 h2,
        runValid_resp, runValid_resp, tryBody_videoTitle, tryBody_videoTitle]
    exact rfl
  · rw [getVideoInfoApi_valid cfg w env fs _ id1 e1 h1,
        getVideoInfoApi_valid cfg w env fs _ id2 e2 h2,
        runValid_resp, runValid_resp, tryBody_channelName, tryBody_channelName]
    exact rfl

/-- C3 witness: two different ids, same title field. -/
theorem C3_witness :
    (getVideoInfoApi ⟨none⟩ wDemo ⟨none, none⟩ [] [("video_id", "aaa")]).resp.videoTitle =
      (getVideoInfoApi ⟨none⟩ wDemo ⟨none, none⟩ [] [("video_id", "bbb")]).resp.videoTitle :=
  (C3_metadata_independent ⟨none⟩ wDemo ⟨none, none⟩ [] "aaa" "bbb"
    (by decide) (by decide) (by decide)).2.1

/-- C4 (counterexample): a manual track in the first preferred language
exists, yet the handler serves the auto-generated one: the found manual
track fetches to an empty list, the Python truthiness test treats it as
absent, and the probe falls through to the generated tracks. -/
theorem C4_counterexample :
    (findTrack tlC4.manual preferredLanguages).isSome = true ∧
    (getVideoInfoApi ⟨none⟩
      { wDemo with listing := fun _ => ListOutcome.ok tlC4 }
      ⟨none, none⟩ [] [("video_id", "abc")]).resp.languageDetected =
      some "ro (auto-generated)" := by
  constructor
  · decide
  · rfl

/-- C4 (amended): the handler probes the fixed list ["ro", "en"] in order
against manual tracks and keeps the first find when its fetch is nonempty;
when every manual find fetches empty, or nothing manual matches, the same
list in the same order is probed against auto-generated tracks and the first
nonempty find is returned with the auto-generated label. -/
theorem C4_amended (cfg : Config) (w : World) (env : ProxyEnv) (fs : FS)
    (args : Args) (vid : String) (tl : TranscriptList)
    (hvid : argsGet args "video_id" = some vid) (hne : vid ≠ "")
    (hl : w.listing vid = ListOutcome.ok tl) :
    (∀ t, findTrack tl.manual preferredLanguages = some t → t.segments ≠ [] →
      (getVideoInfoApi cfg w env fs args).resp.status = 200 ∧
      (getVideoInfoApi cfg w env fs args).resp.languageDetected = some t.lang ∧
      (getVideoInfoApi cfg w env fs args).resp.transcriptDownloadUrl =
        some ("/serve_text_transcript/" ++ transcriptFilename vid w.suffix)) ∧
    (∀ t, (∀ tm, findTrack tl.manual preferredLanguages = some tm → tm.segments = []) →
      findTrack tl.generated preferredLanguages = some t → t.segments ≠ [] →
      (getVideoInfoApi cfg w env fs args).resp.status = 200 ∧
      (getVideoInfoApi cfg w env fs args).resp.languageDetected =
        some (t.lang ++ " (auto-generated)") ∧
      (getVideoInfoApi cfg w env fs args).resp.transcriptDownloadUrl =
        some ("/serve_text_transcript/" ++ transcriptFilename vid w.suffix)) := by
  rw [getVideoInfoApi_valid cfg w env fs args vid hvid hne]
  constructor
  · intro t ht hts
    rw [runValid_success cfg w env fs vid tl t.segments t.lang hl
      (selectTranscript_manual tl t ht hts)]
    exact ⟨rfl, rfl, rfl⟩
  · intro t hm ht hts
    rw [runValid_success cfg w env fs vid tl t.segments
      (t.lang ++ " (auto-generated)") hl
      (selectTranscript_generated tl t hm ht hts)]
    exact ⟨rfl, rfl, rfl⟩

/-- C4 witness: with the demo listing (manual English only), the amended
statement yields the manual English track at a concrete input. -/
theorem C4_witness :
    (getVideoInfoApi ⟨none⟩ wDemo ⟨none, none⟩ []
      [("video_id", "vid1")]).resp.languageDetected = some "en" := by
  have h := (C4_amended ⟨none⟩ wDemo ⟨none, none⟩ [] [("video_id", "vid1")]
    "vid1" demoTL (by decide) (by decide) rfl).1 ⟨"en", demoSegs⟩
    (by decide) (by decide)
  exact h.2.1

/-- C5: the serving endpoint serves an existing file exactly once, with the
plain-text content type and the file content as body, and deletes it, so a
second request for the same name yields 404; a name with no file yields 404
as well. -/
theorem C5_serve_once (fs : FS) (name : String) :
    (∀ c, FS.lookup fs name = some c →
      (servePlainTextTranscript fs name).status = 200 ∧
      (servePlainTextTranscript fs name).contentType = "text/plain; charset=utf-8" ∧
      (servePlainTextTranscript fs name).body = some c ∧
      (servePlainTextTranscript (servePlainTextTranscript fs name).fs name).status = 404) ∧
    (FS.lookup fs name = none →
      (servePlainTextTranscript fs name).status = 404) := by
  constructor
  · intro c hc
    refine ⟨?_, ?_, ?_, ?_⟩ <;>
      simp [servePlainTextTranscript, hc, FS.lookup_erase_self]
  · intro hc
    simp [servePlainTextTranscript, hc]

/-- C5 witness: a concrete file is served once and gone on the second try;
a never-generated name is 404. -/
theorem C5_witness :
    (servePlainTextTranscript [("f.txt", "hello")] "f.txt").status = 200 ∧
    (servePlainTextTranscript
      (servePlainTextTranscript [("f.txt", "hello")] "f.txt").fs "f.txt").status = 404 ∧
    (servePlainTextTranscript [] "ghost.txt").status = 404 :=
  ⟨((C5_serve_once [("f.txt", "hello")] "f.txt").1 "hello" rfl).1,
   ((C5_serve_once [("f.txt", "hello")] "f.txt").1 "hello" rfl).2.2.2,
   (C5_serve_once [] "ghost.txt").2 rfl⟩

/-- C6: whenever the per-request cookie temp file was created, it is absent
from the temp directory at the end of the request, on every path through the
handler (the finally block always deletes it). -/
theorem C6_cookie_deleted (cfg : Config) (w : World) (env : ProxyEnv) (fs : FS)
    (args : Args) (vid : String) (nc : String × String)
    (hvid : argsGet args "video_id" = some vid) (hne : vid ≠ "")
    (hck : cookieFile w = some nc) :
    FS.lookup (getVideoInfoApi cfg w env fs args).fs nc.1 = none := by
  rw [getVideoInfoApi_valid cfg w env fs args vid hvid hne]
  simp only [runValid, hck]
  exact FS.lookup_erase_self _ _

/-- C6 witness: the cookie file created from concrete cookie content is gone
after the request. -/
theorem C6_witness :
    FS.lookup (getVideoInfoApi ⟨none⟩ wCookie ⟨none, none⟩ []
      [("video_id", "v")]).fs "cookie_tmp.txt" = none :=
  C6_cookie_deleted ⟨none⟩ wCookie ⟨none, none⟩ [] [("video_id", "v")] "v"
    ("cookie_tmp.txt", "COOKIE DATA") (by decide) (by decide) rfl

/-- C7: a failed metadata fetch does not abort the request: the transcript
path still runs, and a found transcript yields 200 with null title and
channel fields and no error, rather than an error status caused by the
metadata failure. -/
theorem C7_metadata_failure_nonfatal (cfg : Config) (w : World) (env : ProxyEnv)
    (fs : FS) (args : Args) (vid : String) (tl : TranscriptList)
    (segs : List Segment) (lang : String)
    (hvid : argsGet args "video_id" = some vid) (hne : vid ≠ "")
    (hp : w.pytube (videoUrl vid) = PytubeResult.fail)
    (hl : w.listing vid = ListOutcome.ok tl)
    (hs : selectTranscript tl = some (segs, lang)) :
    (getVideoInfoApi cfg w env fs args).resp.status = 200 ∧
    (getVideoInfoApi cfg w env fs args).resp.videoTitle = none ∧
    (getVideoInfoApi cfg w env fs args).resp.channelName = none ∧
    (getVideoInfoApi cfg w env fs args).resp.error = none ∧
    (getVideoInfoApi cfg w env fs args).resp.transcriptDownloadUrl =
      some ("/serve_text_transcript/" ++ transcriptFilename vid w.suffix) := by
  rw [getVideoInfoApi_valid cfg w env fs args vid hvid hne,
      runValid_success cfg w env fs vid tl segs lang hl hs, hp]
  exact ⟨rfl, rfl, rfl, rfl, rfl⟩

/-- C7 witness: failed metadata, found transcript, 200 with null title. -/
theorem C7_witness :
    (getVideoInfoApi ⟨none⟩ wFail ⟨none, none⟩ [] [("video_id", "v")]).resp.status = 200 ∧
    (getVideoInfoApi ⟨none⟩ wFail ⟨none, none⟩ [] [("video_id", "v")]).resp.videoTitle = none :=
  ⟨(C7_metadata_failure_nonfatal ⟨none⟩ wFail ⟨none, none⟩ [] [("video_id", "v")]
      "v" demoTL demoSegs "en" (by decide) (by decide) rfl rfl rfl).1,
   (C7_metadata_failure_nonfatal ⟨none⟩ wFail ⟨none, none⟩ [] [("video_id", "v")]
      "v" demoTL demoSegs "en" (by decide) (by decide) rfl rfl rfl).2.1⟩

/-- C8: a missing or empty video_id parameter yields 400 with the error body,
whatever else the query string carries; the early return happens before the
try block, so filesystem and proxy environment are untouched. -/
theorem C8_missing_video_id (cfg : Config) (w : World) (env : ProxyEnv)
    (fs : FS) (args : Args)
    (h : argsGet args "video_id" = none ∨ argsGet args "video_id" = some "") :
    (getVideoInfoApi cfg w env fs args).resp.status = 400 ∧
    (getVideoInfoApi cfg w env fs args).resp.error =
      some "Missing \x27video_id\x27 parameter" ∧
    (getVideoInfoApi cfg w env fs args).fs = fs ∧
    (getVideoInfoApi cfg w env fs args).env = env := by
  have ht : truthy (argsGet args "video_id") = false := by
    rcases h with h | h <;> rw [h] <;> rfl
  simp [getVideoInfoApi, ht]

/-- C8 witness: no video_id among the parameters, status 400. -/
theorem C8_witness :
    (getVideoInfoApi ⟨none⟩ wDemo ⟨none, none⟩ [] [("format", "text")]).resp.status = 400 :=
  (C8_missing_video_id ⟨none⟩ wDemo ⟨none, none⟩ [] [("format", "text")]
    (Or.inl (by decide))).1

/-- C9: captions disabled on the video yields 403 with the error body, for
any query string, hence independently of any format selector present. -/
theorem C9_disabled_403 (cfg : Config) (w : World) (env : ProxyEnv) (fs : FS)
    (args : Args) (vid : String)
    (hvid : argsGet args "video_id" = some vid) (hne : vid ≠ "")
    (hd : w.listing vid = ListOutcome.disabled) :
    (getVideoInfoApi cfg w env fs args).resp.status = 403 ∧
    (getVideoInfoApi cfg w env fs args).resp.error =
      some "Transcripts are disabled for this video." := by
  rw [getVideoInfoApi_valid cfg w env fs args vid hvid hne, runValid_resp, hd]
  exact ⟨rfl, rfl⟩

/-- C9 witness: captions disabled with a format selector present, 403. -/
theorem C9_witness :
    (getVideoInfoApi ⟨none⟩ { wDemo with listing := fun _ => ListOutcome.disabled }
      ⟨none, none⟩ [] [("video_id", "v"), ("format", "text")]).resp.status = 403 :=
  (C9_disabled_403 ⟨none⟩ { wDemo with listing := fun _ => ListOutcome.disabled }
    ⟨none, none⟩ [] [("video_id", "v"), ("format", "text")] "v"
    (by decide) (by decide) rfl).1

/-- C10 (counterexample): a request carrying format=text still receives a
JSON response from /api/video_info: the format parameter is never read, the
content type is JSON, and the body is the structured record with a download
URL instead of a plain-text transcript. -/
theorem C10_counterexample :
    (getVideoInfoApi ⟨none⟩ wDemo ⟨none, none⟩ []
      [("video_id", "abc"), ("format", "text")]).resp.contentType = "application/json" ∧
    (getVideoInfoApi ⟨none⟩ wDemo ⟨none, none⟩ []
      [("video_id", "abc"), ("format", "text")]).resp.contentType ≠
        "text/plain; charset=utf-8" ∧
    (getVideoInfoApi ⟨none⟩ wDemo ⟨none, none⟩ []
      [("video_id", "abc"), ("format", "text")]).resp.transcriptDownloadUrl ≠ none := by
  refine ⟨rfl, ?_, ?_⟩ <;> decide

/-- C10 (amended): /api/video_info ignores any format parameter and always
answers in JSON; the plain-text rendering, the segment texts in order joined
by newlines, is obtained with the text/plain content type from the companion
serving endpoint at the returned download URL. -/
theorem C10_amended (cfg : Config) (w : World) (env : ProxyEnv) (fs : FS)
    (args : Args) (vid : String) (tl : TranscriptList) (segs : List Segment)
    (lang : String)
    (hvid : argsGet args "video_id" = some vid) (hne : vid ≠ "")
    (hl : w.listing vid = ListOutcome.ok tl)
    (hs : selectTranscript tl = some (segs, lang))
    (hcn : w.cookieName ≠ transcriptFilename vid w.suffix) :
    (getVideoInfoApi cfg w env fs args).resp.contentType = "application/json" ∧
    (getVideoInfoApi cfg w env fs args).resp.body = none ∧
    (servePlainTextTranscript (getVideoInfoApi cfg w env fs args).fs
        (transcriptFilename vid w.suffix)).contentType = "text/plain; charset=utf-8" ∧
    (servePlainTextTranscript (getVideoInfoApi cfg w env fs args).fs
        (transcriptFilename vid w.suffix)).body =
      some (String.intercalate "\n" (segs.map Segment.text)) := by
  rw [getVideoInfoApi_valid cfg w env fs args vid hvid hne]
  have hfs := runValid_success_fs cfg w env fs vid tl segs lang hl hs hcn
  refine ⟨?_, ?_, ?_, ?_⟩
  · rw [runValid_success cfg w env fs vid tl segs lang hl hs]
  · rw [runValid_success cfg w env fs vid tl segs lang hl hs]
  · simp [servePlainTextTranscript, hfs]
  · simp [servePlainTextTranscript, hfs, formatTranscript]

/-- C10 witness: the served file body is the newline-joined segment texts. -/
theorem C10_witness :
    (servePlainTextTranscript
      (getVideoInfoApi ⟨none⟩ wDemo ⟨none, none⟩ []
        [("video_id", "abc"), ("format", "text")]).fs
      (transcriptFilename "abc" "abcd1234")).body = some "Hello\nworld" := by
  have h := C10_amended ⟨none⟩ wDemo ⟨none, none⟩ []
    [("video_id", "abc"), ("format", "text")] "abc" demoTL demoSegs "en"
    (by decide) (by decide) rfl rfl (by decide)
  exact h.2.2.2.trans (by decide)

end YTService
